import Mathlib

/-!
# Verification of `deepseek.py` (DeepSeek CLI chat client)

Shallow embedding of the text-integrity pipeline (`TextSanitizer`), the
bounded conversation buffer (`DeepSeekChat.add_message`), the retrying
streaming loop (`DeepSeekChat.stream_chat`) and the session persister
(`DeepSeekChat.save_conversation` / `_generate_title` /
`_sanitize_filename`).

A Python `str` is modelled as a list of Unicode code points (`Str`); a
Python value that may be `None` or a string is modelled as `Option Str`.
The external library call `ftfy.fix_text(text, normalization='NFKC')`
(stage 1 of the sanitizer) is not part of this repository; it is
modelled as a parameter `fixText : Str → Except Unit Str` — an arbitrary
repair function that may also raise (`Except.error`), which the
sanitizer's `except` clause catches.  Stages 2 and 3 and everything else
are translated directly from `src/deepseek.py`.
-/

set_option autoImplicit false

namespace DeepSeekPy

/-- A Python `str`: a finite sequence of Unicode code points. -/
abbrev Str := List Nat

/-- The UTF-16 surrogate range `[\ud800-\udfff]` used by the character
class of stage 2's `re.sub`. -/
def isSurrogate (c : Nat) : Bool := 0xd800 ≤ c && c ≤ 0xdfff

/-- A string is well formed (re-encodable as UTF-8) iff it contains no
surrogate code point. -/
def surrogateFree (s : Str) : Bool := s.all (fun c => !isSurrogate c)

/-- Lower-case hexadecimal digit character for a nibble, as produced by
Python's `unicode_escape` codec (`0`-`9`, `a`-`f`). -/
def hexDigitChar (n : Nat) : Nat := if n < 10 then 48 + n else 87 + n

/-- The four hex-digit characters of a code point `c < 0x10000`; this is
`m.group(0).encode("unicode_escape").decode()[-4:]` for a surrogate
match `m` (the `unicode_escape` form of a surrogate is `\udXXX`, whose
last four characters are the four hex digits of the code point). -/
def hex4 (c : Nat) : Str :=
  [hexDigitChar (c / 4096 % 16), hexDigitChar (c / 256 % 16),
   hexDigitChar (c / 16 % 16), hexDigitChar (c % 16)]

/-- The replacement text `\uXXXX` substituted for one surrogate code
point: a backslash (92), the letter `u` (117) and four hex digits. -/
def escHex (c : Nat) : Str := 92 :: 117 :: hex4 c

/-- Stage 2 of `TextSanitizer.sanitize`:
`re.sub(r'[\ud800-\udfff]', lambda m: f'\\u{...[-4:]}', text)` —
every code point in the surrogate range is replaced by its `\uXXXX`
escape, all other code points are kept. -/
def substSurrogates (s : Str) : Str :=
  (s.map (fun c => if isSurrogate c then escHex c else [c])).flatten

/-- Stage 3 of `TextSanitizer.sanitize`:
`text.encode('utf-8', 'replace').decode('utf-8')`.  The UTF-8 encoder
rejects exactly the surrogate code points; with `errors='replace'` each
is encoded as the byte `b'?'` (63), and decoding is then lossless. -/
def utf8RoundtripReplace (s : Str) : Str :=
  s.map (fun c => if isSurrogate c then 63 else c)

/-- The fixed sentinel string `"[内容包含无法解析的字符]"` returned by
the `except` clause of `TextSanitizer.sanitize`. -/
def sentinel : Str :=
  [0x5b, 0x5185, 0x5bb9, 0x5305, 0x542b, 0x65e0, 0x6cd5, 0x89e3,
   0x6790, 0x7684, 0x5b57, 0x7b26, 0x5d]

/-- The `try` body of `TextSanitizer.sanitize` on a non-empty string:
stage 1 (the external `fix_text`, which may raise), then stage 2, then
stage 3. -/
def sanitizePipeline (fixText : Str → Except Unit Str) (s : Str) :
    Except Unit Str := do
  let t ← fixText s
  pure (utf8RoundtripReplace (substSurrogates t))

/-- `TextSanitizer.sanitize` on a string argument.  `if not text: return
text` sends the empty string to itself; otherwise the pipeline runs and
any raised error is caught, returning the fixed sentinel. -/
def sanitizeStr (fixText : Str → Except Unit Str) (s : Str) : Str :=
  if s = [] then s
  else
    match sanitizePipeline fixText s with
    | .ok t => t
    | .error _ => sentinel

/-- `TextSanitizer.sanitize` on a possibly-`None` argument: `None` is
falsy, so `if not text: return text` returns `None` itself. -/
def sanitize (fixText : Str → Except Unit Str) : Option Str → Option Str
  | none => none
  | some s => some (sanitizeStr fixText s)

/-- The trivial instantiation of the external stage-1 repair: a
`fix_text` that returns its input unchanged and never raises.  Used to
evaluate the model on concrete inputs. -/
def okFix : Str → Except Unit Str := fun s => Except.ok s

/-- A message dict `{"role": ..., "content": ...}`.  The role is the
string passed by the caller; the content may be `None` (Python `None`
survives `sanitize` unchanged). -/
structure Message where
  role : Str
  content : Option Str
deriving DecidableEq, Repr

/-- The role string `"system"`. -/
def sysRole : Str := [115, 121, 115, 116, 101, 109]

/-- The role string `"user"`. -/
def userRole : Str := [117, 115, 101, 114]

/-- The role string `"assistant"`. -/
def assistantRole : Str := [97, 115, 115, 105, 115, 116, 97, 110, 116]

/-- `TextSanitizer.sanitize_message_history`: rebuilds every message
with the same role and sanitized content, preserving order; returns a
new list. -/
def sanitizeMessageHistory (fixText : Str → Except Unit Str)
    (msgs : List Message) : List Message :=
  msgs.map (fun m => ⟨m.role, sanitize fixText m.content⟩)

/-- `DeepSeekChat._initialize_session`: the history starts as the
sanitized one-element list holding the system message.  The concrete
Chinese prompt text is the `sysContent` argument. -/
def initMessages (fixText : Str → Except Unit Str) (sysContent : Str) :
    List Message :=
  sanitizeMessageHistory fixText [⟨sysRole, some sysContent⟩]

/-- `DeepSeekChat.add_message`: sanitize the content, append the
message, then enforce the retention policy
`if len(self.messages) > 11: self.messages = [self.messages[0]] +
self.messages[-10:]` (`[m[0]]` is `take 1`, `m[-10:]` is
`drop (len - 10)`). -/
def addMessage (fixText : Str → Except Unit Str) (st : List Message)
    (role : Str) (content : Option Str) : List Message :=
  let st' := st ++ [⟨role, sanitize fixText content⟩]
  if st'.length > 11 then st'.take 1 ++ st'.drop (st'.length - 10) else st'

/-- A sequence of `add_message` calls, oldest first. -/
def runAdds (fixText : Str → Except Unit Str) (st : List Message)
    (calls : List (Str × Option Str)) : List Message :=
  calls.foldl (fun st rc => addMessage fixText st rc.1 rc.2) st

/-- What one iteration of the `while` loop in
`DeepSeekChat.stream_chat` observes from the remote exchange: the
stream completes with a list of chunk contents (`delta.content`, each
possibly `None`), or it raises `UnicodeEncodeError`, or it raises any
other exception carrying a message string. -/
inductive AttemptResult where
  | ok (chunks : List (Option Str))
  | unicodeEncodeError
  | otherException (msg : Str)
deriving DecidableEq, Repr

/-- How `stream_chat` returns: a normal completion (assistant message
added), an immediate abort printing one sanitized error message, or
retry exhaustion printing the advisory `"超过最大重试次数，建议开启新对话"`
with no assistant message added. -/
inductive StreamOutcome where
  | success
  | aborted (errMessage : Str)
  | exhausted
deriving DecidableEq, Repr

/-- The error text `"\n请求出错："` prepended to `str(e)` before
sanitizing in the generic `except` branch of `stream_chat`. -/
def errMsgPre : Str := [10, 0x8bf7, 0x6c42, 0x51fa, 0x9519, 0xff1a]

/-- The accumulation of one successful stream:
`full_response` collects `sanitize(content)` for every truthy chunk
content (`if content:` skips `None` and the empty string), and
`"".join(full_response)` concatenates them. -/
def accumulateChunks (fixText : Str → Except Unit Str)
    (chunks : List (Option Str)) : Str :=
  (chunks.map (fun c? =>
    match c? with
    | none => []
    | some s => if s = [] then [] else sanitizeStr fixText s)).flatten

/-- The `while attempt < max_retries` loop of `stream_chat`, with
`remaining = max_retries - attempt` as structural fuel.  The iteration
numbered `attempt` observes `attempts attempt`:
on a completed stream the joined sanitized chunks become one assistant
message via `add_message` and the method returns; on
`UnicodeEncodeError` the counter is incremented and the whole history
is replaced by its re-sanitization before retrying; on any other
exception the method prints one sanitized error message and returns
with the history untouched. -/
def streamChatLoop (fixText : Str → Except Unit Str)
    (attempts : Nat → AttemptResult) :
    Nat → Nat → List Message → List Message × StreamOutcome
  | _, 0, st => (st, .exhausted)
  | attempt, r + 1, st =>
    match attempts attempt with
    | .ok chunks =>
        (addMessage fixText st assistantRole
          (some (accumulateChunks fixText chunks)), .success)
    | .unicodeEncodeError =>
        streamChatLoop fixText attempts (attempt + 1) r
          (sanitizeMessageHistory fixText st)
    | .otherException m =>
        (st, .aborted (sanitizeStr fixText (errMsgPre ++ m)))

/-- `DeepSeekChat.stream_chat(max_retries)`: the loop starts at
`attempt = 0` with `max_retries` iterations available. -/
def streamChat (fixText : Str → Except Unit Str)
    (attempts : Nat → AttemptResult) (maxRetries : Nat)
    (st : List Message) : List Message × StreamOutcome :=
  streamChatLoop fixText attempts 0 maxRetries st

/-- `DeepSeekChat.should_save_conversation`:
`return len(self.messages) >= 5`. -/
def shouldSaveConversation (st : List Message) : Bool :=
  st.length ≥ 5

/-- The code points Python's `str.strip()` treats as whitespace. -/
def isPySpace (c : Nat) : Bool :=
  (9 ≤ c && c ≤ 13) || (28 ≤ c && c ≤ 31) || c = 32 || c = 0x85 ||
  c = 0xa0 || c = 0x1680 || (0x2000 ≤ c && c ≤ 0x200a) || c = 0x2028 ||
  c = 0x2029 || c = 0x202f || c = 0x205f || c = 0x3000

/-- Python `str.strip()`: remove leading and trailing whitespace. -/
def pyStrip (s : Str) : Str :=
  ((s.dropWhile isPySpace).reverse.dropWhile isPySpace).reverse

/-- A character retained by `_sanitize_filename`'s character class
`[一-龥a-zA-Z0-9_ ]`: CJK ideographs, ASCII letters, digits,
underscore and space. -/
def isFilenameChar (c : Nat) : Bool :=
  (0x4e00 ≤ c && c ≤ 0x9fa5) || (97 ≤ c && c ≤ 122) ||
  (65 ≤ c && c ≤ 90) || (48 ≤ c && c ≤ 57) || c = 95 || c = 32

/-- `DeepSeekChat._sanitize_filename`: drop every disallowed character,
strip leading/trailing whitespace, truncate to 30 characters. -/
def sanitizeFilename (title : Str) : Str :=
  (pyStrip (title.filter isFilenameChar)).take 30

/-- `DeepSeekChat._generate_title`.  The sample is
`self.messages[1:3]`; an empty sample returns `None` before any remote
call.  The remote title call is external: `titleApi` is its observed
result — the raw response content, or an exception.  On success the
stripped raw title is passed through `_sanitize_filename`; any
exception returns `None`. -/
def generateTitle (titleApi : Except Unit Str) (st : List Message) :
    Option Str :=
  let sample := (st.drop 1).take 2
  if sample = [] then none
  else
    match titleApi with
    | .ok raw => some (sanitizeFilename (pyStrip raw))
    | .error _ => none

/-- Python f-string interpolation of a value that is a string or
`None`: `f"{None}"` is the literal text `"None"`. -/
def pyFormatOpt : Option Str → Str
  | none => [78, 111, 110, 101]
  | some t => t

/-- The model identifier string `"deepseek-chat"`. -/
def modelName : Str :=
  [100, 101, 101, 112, 115, 101, 101, 107, 45, 99, 104, 97, 116]

/-- The role label of the transcript:
`"用户" if msg['role'] == 'user' else "助手"`. -/
def roleLabel (role : Str) : Str :=
  if role = userRole then [0x7528, 0x6237] else [0x52a9, 0x624b]

/-- The structured JSON artifact written by `save_conversation`:
`created_at` (isoformat timestamp), `model`, `message_count`
(`len(self.messages) - 1`, the system message excluded) and
`messages` (`self.messages[1:]`). -/
structure JsonArtifact where
  createdAt : Str
  model : Str
  messageCount : Nat
  messages : List Message
deriving DecidableEq, Repr

/-- One line `[idx//2+1] label：content` of the plain-text transcript
(content rendered by f-string interpolation). -/
structure TxtLine where
  exchangeIdx : Nat
  label : Str
  content : Str
deriving DecidableEq, Repr

/-- The plain-text transcript: a header with the timestamp, then one
line per non-system message. -/
structure TxtTranscript where
  timestamp : Str
  lines : List TxtLine
deriving DecidableEq, Repr

/-- One filesystem write performed by `save_conversation`: the JSON
artifact at `{home}/json/{base}.json` or the transcript at
`{home}/txt/{base}.txt`. -/
inductive FileWrite where
  | jsonFile (base : Str) (artifact : JsonArtifact)
  | txtFile (base : Str) (transcript : TxtTranscript)
deriving DecidableEq, Repr

/-- The base name (without extension) of a write. -/
def FileWrite.base : FileWrite → Str
  | .jsonFile b _ => b
  | .txtFile b _ => b

/-- Whether a write is the JSON artifact. -/
def FileWrite.isJson : FileWrite → Bool
  | .jsonFile _ _ => true
  | .txtFile _ _ => false

/-- `DeepSeekChat.save_conversation`.  If the gate fails the method
returns `False` having performed no filesystem action; otherwise
`base_name = f"{self._generate_title()}_{timestamp}"` (a `None` title
is interpolated as the text `"None"`), and both files are written.
`ts` is `datetime.now().strftime(...)`, `now` is
`datetime.now().isoformat()`; both are opaque inputs here. -/
def saveConversation (titleApi : Except Unit Str) (ts now : Str)
    (st : List Message) : Bool × List FileWrite :=
  if shouldSaveConversation st then
    let base := pyFormatOpt (generateTitle titleApi st) ++ [95] ++ ts
    (true,
     [.jsonFile base ⟨now, modelName, st.length - 1, st.drop 1⟩,
      .txtFile base
        ⟨ts, (st.drop 1).enum.map (fun im =>
          ⟨im.1 / 2 + 1, roleLabel im.2.role, pyFormatOpt im.2.content⟩)⟩])
  else (false, [])

/-- An external stage-1 repair that always raises: drives the
`except` branch of `sanitize` on concrete inputs. -/
def errFix : Str → Except Unit Str := fun _ => Except.error ()

/-- `n` alternating `add_message` calls (user first, then assistant,
…), with pairwise distinct one-character contents: the concrete call
sequence used to evaluate the retention policy. -/
def altCalls (n : Nat) : List (Str × Option Str) :=
  (List.range n).map
    (fun i => (if i % 2 = 0 then userRole else assistantRole, some [49 + i]))

/-- The buffer after an empty-prompt initialization and ten
alternating turn additions: the full 11-entry window. -/
def elevenState : List Message :=
  runAdds okFix (initMessages okFix []) (altCalls 10)

/-- The buffer after an empty-prompt initialization and four
alternating turn additions: the 5-entry state at the save gate. -/
def fiveState : List Message :=
  runAdds okFix (initMessages okFix []) (altCalls 4)

/-- A remote exchange that raises `UnicodeEncodeError` on the first
two attempts and completes with one chunk `"A"` on the third. -/
def encTwiceThenOk : Nat → AttemptResult :=
  fun n => if n < 2 then .unicodeEncodeError else .ok [some [65]]

/-- A remote exchange that raises `UnicodeEncodeError` on every
attempt. -/
def encAlways : Nat → AttemptResult := fun _ => .unicodeEncodeError

/-! ## Lemmas about the sanitizer pipeline -/

theorem isSurrogate_eq_false_of_lt {c : Nat} (h : c < 0xd800) :
    isSurrogate c = false := by
  simp only [isSurrogate, Bool.and_eq_false_iff, decide_eq_false_iff_not]
  omega

theorem hexDigitChar_mod_lt (m : Nat) : hexDigitChar (m % 16) < 0xd800 := by
  unfold hexDigitChar
  split <;> omega

theorem surrogateFree_append (a b : Str) :
    surrogateFree (a ++ b) = (surrogateFree a && surrogateFree b) := by
  simp [surrogateFree]

theorem surrogateFree_escHex (c : Nat) : surrogateFree (escHex c) = true := by
  simp only [escHex, hex4, surrogateFree, List.all_cons, List.all_nil,
    Bool.and_true, Bool.and_eq_true, Bool.not_eq_true']
  refine ⟨?_, ?_, ?_, ?_, ?_, ?_⟩ <;>
    exact isSurrogate_eq_false_of_lt (by first | omega | exact hexDigitChar_mod_lt _)

theorem substSurrogates_nil : substSurrogates [] = [] := rfl

theorem substSurrogates_cons (c : Nat) (s : Str) :
    substSurrogates (c :: s)
      = (if isSurrogate c then escHex c else [c]) ++ substSurrogates s := by
  simp [substSurrogates]

theorem substSurrogates_append (a b : Str) :
    substSurrogates (a ++ b) = substSurrogates a ++ substSurrogates b := by
  simp [substSurrogates]

theorem surrogateFree_substSurrogates (s : Str) :
    surrogateFree (substSurrogates s) = true := by
  induction s with
  | nil => rfl
  | cons c s ih =>
    rw [substSurrogates_cons, surrogateFree_append, ih, Bool.and_true]
    by_cases hc : isSurrogate c = true
    · rw [if_pos hc]; exact surrogateFree_escHex c
    · rw [if_neg hc]
      simp only [surrogateFree, List.all_cons, List.all_nil, Bool.and_true,
        Bool.not_eq_true']
      exact Bool.not_eq_true _ ▸ hc

theorem surrogateFree_utf8RoundtripReplace (s : Str) :
    surrogateFree (utf8RoundtripReplace s) = true := by
  induction s with
  | nil => rfl
  | cons c s ih =>
    show surrogateFree
      ((if isSurrogate c then 63 else c) :: utf8RoundtripReplace s) = true
    simp only [surrogateFree, List.all_cons, Bool.and_eq_true,
      Bool.not_eq_true'] at ih ⊢
    refine ⟨?_, ih⟩
    by_cases hc : isSurrogate c = true
    · rw [if_pos hc]; decide
    · rw [if_neg hc]
      exact Bool.not_eq_true _ ▸ hc

theorem substSurrogates_of_surrogateFree {s : Str}
    (h : surrogateFree s = true) : substSurrogates s = s := by
  induction s with
  | nil => rfl
  | cons c s ih =>
    simp only [surrogateFree, List.all_cons, Bool.and_eq_true,
      Bool.not_eq_true'] at h
    rw [substSurrogates_cons, if_neg (by simp [h.1]), ih h.2]
    rfl

theorem utf8RoundtripReplace_of_surrogateFree {s : Str}
    (h : surrogateFree s = true) : utf8RoundtripReplace s = s := by
  induction s with
  | nil => rfl
  | cons c s ih =>
    simp only [surrogateFree, List.all_cons, Bool.and_eq_true,
      Bool.not_eq_true'] at h
    show (if isSurrogate c then 63 else c) :: utf8RoundtripReplace s = c :: s
    rw [if_neg (by simp [h.1]), ih h.2]

theorem surrogateFree_sentinel : surrogateFree sentinel = true := by decide

theorem sanitizePipeline_eq (f : Str → Except Unit Str) (s : Str) :
    sanitizePipeline f s
      = match f s with
        | .ok t => .ok (utf8RoundtripReplace (substSurrogates t))
        | .error e => .error e := by
  unfold sanitizePipeline
  cases f s <;> rfl

theorem surrogateFree_sanitizeStr (f : Str → Except Unit Str) (s : Str) :
    surrogateFree (sanitizeStr f s) = true := by
  unfold sanitizeStr
  by_cases hs : s = []
  · rw [if_pos hs, hs]; rfl
  · rw [if_neg hs, sanitizePipeline_eq]
    cases f s with
    | ok t => exact surrogateFree_utf8RoundtripReplace _
    | error e => exact surrogateFree_sentinel

theorem sanitizeStr_fixpoint (f : Str → Except Unit Str) {t : Str}
    (hft : f t = .ok t) (hsf : surrogateFree t = true) :
    sanitizeStr f t = t := by
  unfold sanitizeStr
  by_cases ht : t = []
  · rw [if_pos ht]
  · rw [if_neg ht, sanitizePipeline_eq, hft]
    show utf8RoundtripReplace (substSurrogates t) = t
    rw [substSurrogates_of_surrogateFree hsf,
      utf8RoundtripReplace_of_surrogateFree hsf]

/-! ## Claim theorems -/

/-- C1 (counterexample): `sanitize(None)` takes the `if not text:
return text` early exit and returns `None` itself — not well-formed
text (not a string at all), contradicting the claim that every input,
including a missing/`None` value, is mapped to well-formed text. -/
theorem sanitize_none_is_not_text : (sanitize okFix none).isSome = false :=
  rfl

/-- C1 (amended): for every *string* input, `sanitize` is total — its
result is a string, that string is well formed (surrogate-free, hence
re-encodable), and whenever the internal pipeline raises on a
non-empty input the result is the fixed sentinel string
`"[内容包含无法解析的字符]"` rather than a propagated exception.
(`None` input, by contrast, is returned as `None`, not as text.) -/
theorem sanitize_total_on_strings (f : Str → Except Unit Str) (s : Str) :
    (sanitize f (some s)).isSome = true
    ∧ surrogateFree ((sanitize f (some s)).getD []) = true
    ∧ (s ≠ [] → sanitizePipeline f s = .error () →
        sanitize f (some s) = some sentinel) := by
  refine ⟨rfl, surrogateFree_sanitizeStr f s, fun hs herr => ?_⟩
  show some (sanitizeStr f s) = some sentinel
  unfold sanitizeStr
  rw [if_neg hs, herr]

/-- C1 (witness): a stage-1 repair that raises on the one-character
string `"A"` makes the pipeline fail, and `sanitize` then returns the
sentinel. -/
theorem sanitize_total_on_strings_witness :
    ([65] : Str) ≠ [] ∧ sanitizePipeline errFix [65] = .error ()
    ∧ sanitize errFix (some [65]) = some sentinel :=
  ⟨by decide, rfl,
    (sanitize_total_on_strings errFix [65]).2.2 (by decide) rfl⟩

/-- C2: `sanitize(sanitize(x)) == sanitize(x)` for every input `x`
(string or `None`), provided the external stage-1 repair `fix_text`
leaves every output of `sanitize` unchanged (the repair stage fixes
already-repaired text no further; the fixed point of stages 2–3 is
proved here, not assumed). -/
theorem sanitize_idempotent (f : Str → Except Unit Str)
    (hfix : ∀ s t, sanitize f (some s) = some t → f t = .ok t) :
    ∀ x : Option Str, sanitize f (sanitize f x) = sanitize f x := by
  intro x
  cases x with
  | none => rfl
  | some s =>
    show some (sanitizeStr f (sanitizeStr f s)) = some (sanitizeStr f s)
    rw [sanitizeStr_fixpoint f (hfix s (sanitizeStr f s) rfl)
      (surrogateFree_sanitizeStr f s)]

/-- C2 (witness): with the identity repair stage the hypothesis holds
definitionally, and idempotence is exercised on a string containing a
lone high surrogate. -/
theorem sanitize_idempotent_witness :
    (∀ s t, sanitize okFix (some s) = some t → okFix t = .ok t)
    ∧ sanitize okFix (sanitize okFix (some [55296, 65]))
        = sanitize okFix (some [55296, 65]) :=
  ⟨fun _ _ _ => rfl,
    sanitize_idempotent okFix (fun _ _ _ => rfl) (some [55296, 65])⟩

/-- C3: on any input containing a lone surrogate code point `c` (and
on which the external repair stage makes no change), `sanitize`
returns normally — no error, no sentinel — with `c` replaced by its
escape: a backslash, the letter `u`, and the four hex digits of `c`;
the same escaped text is what a streaming chunk contributes to the
display/accumulator (`accumulateChunks`). -/
theorem sanitize_escapes_lone_surrogate (f : Str → Except Unit Str)
    (u v : Str) (c : Nat) (hc : isSurrogate c = true)
    (hfix : f (u ++ c :: v) = .ok (u ++ c :: v)) :
    sanitize f (some (u ++ c :: v))
      = some (substSurrogates u ++ (92 :: 117 :: hex4 c) ++ substSurrogates v)
    ∧ (hex4 c).length = 4
    ∧ (∀ d ∈ hex4 c, (48 ≤ d ∧ d ≤ 57) ∨ (97 ≤ d ∧ d ≤ 102))
    ∧ accumulateChunks f [some (u ++ c :: v)]
      = substSurrogates u ++ (92 :: 117 :: hex4 c) ++ substSurrogates v := by
  have hne : u ++ c :: v ≠ [] := by simp
  have hsan : sanitizeStr f (u ++ c :: v)
      = substSurrogates u ++ (92 :: 117 :: hex4 c) ++ substSurrogates v := by
    unfold sanitizeStr
    rw [if_neg hne, sanitizePipeline_eq, hfix]
    show utf8RoundtripReplace (substSurrogates (u ++ c :: v)) = _
    rw [substSurrogates_append, substSurrogates_cons, if_pos hc]
    rw [utf8RoundtripReplace_of_surrogateFree (by
      rw [surrogateFree_append, surrogateFree_append,
        surrogateFree_substSurrogates, surrogateFree_substSurrogates,
        surrogateFree_escHex, Bool.and_true, Bool.and_true])]
    rw [List.append_assoc]
    rfl
  refine ⟨congrArg some hsan, rfl, ?_, ?_⟩
  · intro d hd
    simp only [hex4, List.mem_cons, List.not_mem_nil, or_false] at hd
    have hgen : ∀ m : Nat,
        (48 ≤ hexDigitChar (m % 16) ∧ hexDigitChar (m % 16) ≤ 57)
        ∨ (97 ≤ hexDigitChar (m % 16) ∧ hexDigitChar (m % 16) ≤ 102) := by
      intro m
      unfold hexDigitChar
      split <;> omega
    rcases hd with h | h | h | h <;> subst h <;> exact hgen _
  · unfold accumulateChunks
    rw [List.map_cons, List.map_nil, List.flatten_cons, List.flatten_nil,
      List.append_nil]
    show (if (u ++ c :: v) = [] then ([] : Str)
      else sanitizeStr f (u ++ c :: v)) = _
    rw [if_neg hne, hsan]

/-- C3 (witness): the one-character string holding the lone high
surrogate U+D800 is escaped to the six characters `\ud800`. -/
theorem sanitize_escapes_lone_surrogate_witness :
    isSurrogate 55296 = true
    ∧ sanitize okFix (some ([] ++ 55296 :: []))
        = some (substSurrogates [] ++ (92 :: 117 :: hex4 55296)
            ++ substSurrogates []) :=
  ⟨by decide,
    (sanitize_escapes_lone_surrogate okFix [] [] 55296 (by decide) rfl).1⟩

/-! ## Lemmas about the conversation buffer -/

theorem addMessage_eq (f : Str → Except Unit Str) (st : List Message)
    (r : Str) (c : Option Str) :
    addMessage f st r c =
      if (st ++ [Message.mk r (sanitize f c)]).length > 11
      then (st ++ [Message.mk r (sanitize f c)]).take 1
        ++ (st ++ [Message.mk r (sanitize f c)]).drop
            ((st ++ [Message.mk r (sanitize f c)]).length - 10)
      else st ++ [Message.mk r (sanitize f c)] := rfl

theorem addMessage_length_le (f : Str → Except Unit Str)
    (st : List Message) (r : Str) (c : Option Str)
    (h : st.length ≤ 11) : (addMessage f st r c).length ≤ 11 := by
  rw [addMessage_eq]
  split
  · next hgt =>
    simp only [List.length_append, List.length_take, List.length_drop,
      List.length_cons, List.length_nil] at hgt ⊢
    omega
  · next hgt =>
    simp only [List.length_append, List.length_cons, List.length_nil] at hgt ⊢
    omega

theorem addMessage_head? (f : Str → Except Unit Str) (st : List Message)
    (r : Str) (c : Option Str) (h : st ≠ []) :
    (addMessage f st r c).head? = st.head? := by
  rw [addMessage_eq]
  cases st with
  | nil => exact absurd rfl h
  | cons a t =>
    split
    · rw [show ((a :: t) ++ [Message.mk r (sanitize f c)]).take 1 = [a] from rfl]
      rfl
    · rfl

theorem runAdds_invariant (f : Str → Except Unit Str)
    (calls : List (Str × Option Str)) :
    ∀ st : List Message, st ≠ [] → st.length ≤ 11 →
      (runAdds f st calls).length ≤ 11
      ∧ (runAdds f st calls).head? = st.head? := by
  induction calls with
  | nil => exact fun st _ h2 => ⟨h2, rfl⟩
  | cons rc calls ih =>
    intro st h1 h2
    have hh := addMessage_head? f st rc.1 rc.2 h1
    have hne : addMessage f st rc.1 rc.2 ≠ [] := by
      intro heq
      rw [heq] at hh
      cases st with
      | nil => exact h1 rfl
      | cons a t => exact Option.noConfusion hh
    obtain ⟨l1, l2⟩ := ih (addMessage f st rc.1 rc.2) hne
      (addMessage_length_le f st rc.1 rc.2 h2)
    exact ⟨l1, l2.trans hh⟩

/-- C4: for every sequence of `add_message` calls after session
initialization, the buffer holds at most 11 entries and entry 0 is
still the original (sanitized) system message — no call sequence
removes or displaces it. -/
theorem conversation_buffer_invariant (f : Str → Except Unit Str)
    (sysContent : Str) (calls : List (Str × Option Str)) :
    (runAdds f (initMessages f sysContent) calls).length ≤ 11
    ∧ (runAdds f (initMessages f sysContent) calls).head?
        = some ⟨sysRole, sanitize f (some sysContent)⟩ := by
  have h := runAdds_invariant f calls (initMessages f sysContent)
    (List.cons_ne_nil _ _) (by show 1 ≤ 11; omega)
  exact ⟨h.1, h.2⟩

/-- C8 (counterexample): after four complete exchanges (8 alternating
turn additions on a fresh session) the buffer holds 9 entries, not 11;
and when a ninth turn-message is added nothing is evicted — the buffer
grows to 10 and the earliest turn-message (the first user message,
content `"1"`) is still at index 1. -/
theorem buffer_after_four_exchanges_cx :
    (runAdds okFix (initMessages okFix []) (altCalls 8)).length = 9
    ∧ (runAdds okFix (initMessages okFix []) (altCalls 9)).length = 10
    ∧ (runAdds okFix (initMessages okFix []) (altCalls 9))[1]?
        = some ⟨userRole, some [49]⟩ := by decide

/-- C8 (amended): the buffer reaches its cap of 11 entries after five
complete exchanges (10 turn-messages); adding an eleventh turn-message
keeps the length at 11, evicts the earliest turn-message (the first
user message) and leaves the system message at index 0, with the first
assistant message now the first turn entry. -/
theorem buffer_window_stabilizes_at_eleven :
    (runAdds okFix (initMessages okFix []) (altCalls 10)).length = 11
    ∧ (runAdds okFix (initMessages okFix []) (altCalls 11)).length = 11
    ∧ (runAdds okFix (initMessages okFix []) (altCalls 11)).head?
        = some ⟨sysRole, some []⟩
    ∧ (runAdds okFix (initMessages okFix []) (altCalls 11))[1]?
        = some ⟨assistantRole, some [50]⟩
    ∧ ⟨userRole, some [49]⟩ ∉ runAdds okFix (initMessages okFix [])
        (altCalls 11) := by decide

/-- C9 (amended): when an `add_message` overflows the 11-entry cap,
the new state is the system message, the old entries from index 2 on,
and the new message — exactly one oldest turn-message is evicted per
overflow (never a user/assistant pair).  After an eviction that drops
a *user* message the first non-system entry is its orphaned assistant
reply; the next eviction drops that orphan, so the first non-system
entry is not an assistant message after every eviction. -/
theorem trim_evicts_one_oldest (f : Str → Except Unit Str)
    (st : List Message) (r : Str) (c : Option Str) (h : st.length = 11) :
    addMessage f st r c = st.take 1 ++ st.drop 2 ++ [Message.mk r (sanitize f c)] := by
  rw [addMessage_eq,
    if_pos (by simp only [List.length_append, List.length_cons,
      List.length_nil, h]; omega),
    show (st ++ [Message.mk r (sanitize f c)]).length - 10 = 2 by
      simp only [List.length_append, List.length_cons, List.length_nil, h],
    List.take_append_of_le_length (by omega),
    List.drop_append_of_le_length (by omega), List.append_assoc]

/-- C9 (witness): at the full 11-entry window, one further user
message evicts exactly the oldest turn-message. -/
theorem trim_evicts_one_oldest_witness :
    elevenState.length = 11
    ∧ addMessage okFix elevenState userRole (some [60])
        = elevenState.take 1 ++ elevenState.drop 2
          ++ [⟨userRole, sanitize okFix (some [60])⟩] :=
  ⟨by decide,
    trim_evicts_one_oldest okFix elevenState userRole (some [60]) (by decide)⟩

/-- C9 (counterexample): after the twelfth alternating turn addition
(the second eviction), the first non-system entry is a *user* message
(content `"3"`), not an assistant message — the claimed consequence
does not hold immediately after every eviction. -/
theorem evicted_head_not_always_assistant :
    (runAdds okFix (initMessages okFix []) (altCalls 12))[1]?
      = some ⟨userRole, some [51]⟩
    ∧ userRole ≠ assistantRole := by decide

/-! ## Lemmas about the streaming retry loop -/

theorem sanitizeMessageHistory_roles (f : Str → Except Unit Str)
    (msgs : List Message) :
    (sanitizeMessageHistory f msgs).map Message.role
      = msgs.map Message.role := by
  simp [sanitizeMessageHistory]

/-- C5: with `max_retries = 3`, every `UnicodeEncodeError` replaces
the history by its re-sanitization and retries; if the attempts before
some `k < 3` all fail that way and attempt `k` completes, the final
history is the `k`-times re-sanitized history with *exactly one* new
assistant message — the joined sanitized fragments — appended through
`add_message`; if all three attempts fail, the outcome is the advisory
(`exhausted`) and the history is only the thrice re-sanitized original:
same length, same roles, no assistant message added. -/
theorem stream_chat_retry_behaviour (f : Str → Except Unit Str)
    (attempts : Nat → AttemptResult) (st : List Message) :
    (∀ k chunks, k < 3 →
      (∀ i, i < k → attempts i = .unicodeEncodeError) →
      attempts k = .ok chunks →
      streamChat f attempts 3 st
        = (addMessage f ((sanitizeMessageHistory f)^[k] st) assistantRole
            (some (accumulateChunks f chunks)), .success))
    ∧ ((∀ i, i < 3 → attempts i = .unicodeEncodeError) →
      streamChat f attempts 3 st
        = ((sanitizeMessageHistory f)^[3] st, .exhausted)
      ∧ ((sanitizeMessageHistory f)^[3] st).map Message.role
          = st.map Message.role) := by
  constructor
  · intro k chunks hk henc hok
    interval_cases k
    · simp [streamChat, streamChatLoop, hok]
    · have h0 := henc 0 (by omega)
      simp [streamChat, streamChatLoop, h0, hok]
    · have h0 := henc 0 (by omega)
      have h1 := henc 1 (by omega)
      simp [streamChat, streamChatLoop, h0, h1, hok,
        Function.iterate_succ_apply]
  · intro henc
    have h0 := henc 0 (by omega)
    have h1 := henc 1 (by omega)
    have h2 := henc 2 (by omega)
    constructor
    · simp [streamChat, streamChatLoop, h0, h1, h2,
        Function.iterate_succ_apply]
    · rw [Function.iterate_succ_apply, Function.iterate_succ_apply,
        Function.iterate_succ_apply, Function.iterate_zero_apply,
        sanitizeMessageHistory_roles, sanitizeMessageHistory_roles,
        sanitizeMessageHistory_roles]

/-- C5 (witness): encoding failures on the first two attempts and a
one-chunk success on the third add exactly one assistant message to
the twice re-sanitized history; three encoding failures exhaust the
retries with no message added. -/
theorem stream_chat_retry_behaviour_witness :
    (2 < 3 ∧ encTwiceThenOk 2 = .ok [some [65]])
    ∧ streamChat okFix encTwiceThenOk 3 (initMessages okFix [])
        = (addMessage okFix
            ((sanitizeMessageHistory okFix)^[2] (initMessages okFix []))
            assistantRole
            (some (accumulateChunks okFix [some [65]])), .success)
    ∧ streamChat okFix encAlways 3 (initMessages okFix [])
        = ((sanitizeMessageHistory okFix)^[3] (initMessages okFix []),
           .exhausted) :=
  ⟨⟨by omega, rfl⟩,
   (stream_chat_retry_behaviour okFix encTwiceThenOk
      (initMessages okFix [])).1 2 [some [65]] (by omega)
      (fun i hi => by interval_cases i <;> rfl) rfl,
   ((stream_chat_retry_behaviour okFix encAlways
      (initMessages okFix [])).2 (fun i _ => rfl)).1⟩

/-- C6: when the first attempt of the exchange raises a non-encoding
failure, `stream_chat` does not retry: it returns at once with the
single sanitized error message `sanitize("\n请求出错：" + str(e))` and
the message history exactly as it was before the call. -/
theorem stream_chat_other_failure_frame (f : Str → Except Unit Str)
    (attempts : Nat → AttemptResult) (maxRetries : Nat)
    (st : List Message) (m : Str) (hmr : 0 < maxRetries)
    (hother : attempts 0 = .otherException m) :
    streamChat f attempts maxRetries st
      = (st, .aborted (sanitizeStr f (errMsgPre ++ m))) := by
  obtain ⟨r, rfl⟩ : ∃ r, maxRetries = r + 1 := ⟨maxRetries - 1, by omega⟩
  simp [streamChat, streamChatLoop, hother]

/-- C6 (witness): an immediate generic failure with message `"X"`
aborts on the spot, leaving the fresh session history untouched. -/
theorem stream_chat_other_failure_frame_witness :
    (0 : Nat) < 3
    ∧ streamChat okFix (fun _ => .otherException [88]) 3
        (initMessages okFix [])
      = (initMessages okFix [],
         .aborted (sanitizeStr okFix (errMsgPre ++ [88]))) :=
  ⟨by omega,
    stream_chat_other_failure_frame okFix (fun _ => .otherException [88]) 3
      (initMessages okFix []) [88] (by omega) rfl⟩

/-! ## Lemmas about saving -/

/-- C7: `save_conversation` returns `False` and writes nothing when
the buffer holds fewer than 5 entries (fewer than two full exchanges
beside the system message); once the gate `len(messages) >= 5` is met
it returns `True` and writes exactly two files — the JSON artifact and
the plain-text transcript. -/
theorem save_conversation_gate (titleApi : Except Unit Str)
    (ts now : Str) (st : List Message) :
    (st.length < 5 → saveConversation titleApi ts now st = (false, []))
    ∧ (5 ≤ st.length →
        (saveConversation titleApi ts now st).1 = true
        ∧ (saveConversation titleApi ts now st).2.map FileWrite.isJson
            = [true, false]) := by
  constructor
  · intro h
    unfold saveConversation
    rw [if_neg (by simp [shouldSaveConversation]; omega)]
  · intro h
    unfold saveConversation
    rw [if_pos (by simp [shouldSaveConversation]; omega)]
    exact ⟨rfl, rfl⟩

/-- C7 (witness): a buffer of system + user + assistant (3 entries) is
below the gate and nothing is written; the 5-entry buffer after two
exchanges is saved with both files. -/
theorem save_conversation_gate_witness :
    ((runAdds okFix (initMessages okFix []) (altCalls 2)).length < 5
      ∧ saveConversation (Except.error ()) [] []
          (runAdds okFix (initMessages okFix []) (altCalls 2))
        = (false, []))
    ∧ (5 ≤ fiveState.length
      ∧ (saveConversation (Except.error ()) [] [] fiveState).1 = true
      ∧ (saveConversation (Except.error ()) [] [] fiveState).2.map FileWrite.isJson
          = [true, false]) :=
  ⟨⟨by decide,
    (save_conversation_gate (Except.error ()) [] []
      (runAdds okFix (initMessages okFix []) (altCalls 2))).1 (by decide)⟩,
   ⟨by decide,
    (save_conversation_gate (Except.error ()) [] [] fiveState).2 (by decide)⟩⟩

/-- C10: `_generate_title` returns `None` whenever the title call
fails; and when the gate is met and the title is `None`,
`save_conversation` still writes both files, whose base name
interpolates `None` by f-string as the literal text `"None"` — both
file names are `None_` followed by the timestamp, with no fallback
title substituted. -/
theorem save_with_none_title (titleApi : Except Unit Str)
    (ts now : Str) (st : List Message) (hgate : 5 ≤ st.length)
    (hnone : generateTitle titleApi st = none) :
    generateTitle (Except.error ()) st = none
    ∧ (saveConversation titleApi ts now st).1 = true
    ∧ (saveConversation titleApi ts now st).2.map FileWrite.base
        = [[78, 111, 110, 101] ++ [95] ++ ts,
           [78, 111, 110, 101] ++ [95] ++ ts]
    ∧ (saveConversation titleApi ts now st).2.map FileWrite.isJson
        = [true, false] := by
  refine ⟨?_, ?_⟩
  · simp [generateTitle]
  · unfold saveConversation
    rw [if_pos (by simp [shouldSaveConversation]; omega), hnone]
    exact ⟨rfl, rfl, rfl⟩

/-- C10 (witness): a failing title call on the 5-entry buffer yields a
`None` title, and both saved files are named `None_` plus the
timestamp `"1"`. -/
theorem save_with_none_title_witness :
    (5 ≤ fiveState.length
      ∧ generateTitle (Except.error ()) fiveState = none)
    ∧ (saveConversation (Except.error ()) [49] [] fiveState).2.map
        FileWrite.base
      = [[78, 111, 110, 101] ++ [95] ++ [49],
         [78, 111, 110, 101] ++ [95] ++ [49]] :=
  ⟨⟨by decide, by decide⟩,
   (save_with_none_title (Except.error ()) [49] [] fiveState (by decide)
      (by decide)).2.2.1⟩

end DeepSeekPy
